import Mathlib

/-!
A shallow embedding of `bpm_web_lookup.py`: a BPM (beats-per-minute) lookup
pipeline that consults a local SQLite cache (`check_known_bpms` /
`save_bpm_to_db`), then the Tunebat search API (`get_bpm_from_tunebat`), then
an HTML-scrape fallback on tunebat.com (`get_bpm_from_tunebat_web_scraping`),
and finally an HTML scrape of songbpm.com (`get_bpm_from_songbpm`).

Modelling conventions:
* Python strings are Lean `String`s; `str.lower()` and SQLite's `LOWER()`
  are both `pyLower` (ASCII scope, which is where they agree).
* The SQLite table `known_bpms` is a list of records in insertion (rowid)
  order; `fetchone` on an unordered `SELECT` is the first row in that order.
* HTTP traffic is an oracle: a `World` maps each request to a transport
  error or a status code plus a body.  HTML bodies are represented by the
  structured view BeautifulSoup would produce (the fields a selector returns)
  together with the raw response text used by the regex heuristics.
* Python regexes used by the source are implemented directly on `List Char`;
  for each of them greedy matching without backtracking is equivalent to the
  Python semantics (argued in the comment of each matcher).
* `sys.exit`/prints become an explicit result record: exit code, stdout and
  stderr line lists, the list of URLs fetched and files written, and the
  final database state.  An uncaught Python exception is `Except.error`.
-/

/-- Python `str.lower()` at ASCII scope (where it agrees with SQLite's
`LOWER()`); implemented on the character list so that it evaluates inside
the kernel. -/
def pyLower (s : String) : String :=
  String.mk (s.data.map Char.toLower)

/-- Python `str.replace(a, b)` for single-character patterns. -/
def charReplace (a b : Char) (s : String) : String :=
  String.mk (s.data.map (fun c => if c == a then b else c))

/-- Python `\s` at ASCII scope: the whitespace class used by `re`. -/
def isPyWs (c : Char) : Bool :=
  [' ', '\t', '\n', '\r', '\x0b', '\x0c'].contains c

/-- Does `hay` start with `needle`? (character-exact) -/
def listStartsWith : List Char → List Char → Bool
  | [], _ => true
  | _ :: _, [] => false
  | l :: ls, c :: cs => l == c && listStartsWith ls cs

/-- Python's substring test `needle in hay`. -/
def strHas (hay needle : String) : Bool :=
  go needle.data hay.data
where
  go (n : List Char) : List Char → Bool
    | [] => n.isEmpty
    | c :: rest => listStartsWith n (c :: rest) || go n rest

/-- Leftmost-match regex scanning: try the matcher at every suffix, left to
right, returning the first success.  This is `re.search` / `findall()[0]`
for the patterns below, none of which can match the empty string. -/
def scanOption {α : Type} (f : List Char → Option α) : List Char → Option α
  | [] => f []
  | c :: rest =>
    match f (c :: rest) with
    | some r => some r
    | none => scanOption f rest

/-- Match `\d+` at the current position (greedy, hence the maximal run). -/
def tryDigits (s : List Char) : Option String :=
  let ds := s.takeWhile Char.isDigit
  if ds.isEmpty then none else some (String.mk ds)

/-- `re.search(r'(\d+)', s)`: the first maximal digit run of `s`. -/
def findFirstDigitRun (s : String) : Option String :=
  scanOption tryDigits s.data

/-- Match a literal at the current position, case-sensitively; return the
rest of the input. -/
def matchLit : List Char → List Char → Option (List Char)
  | [], s => some s
  | _ :: _, [] => none
  | l :: ls, c :: cs => if l == c then matchLit ls cs else none

/-- Match a literal at the current position up to ASCII case; return the
rest of the input.  Models `re.IGNORECASE` literals. -/
def matchLitCI : List Char → List Char → Option (List Char)
  | [], s => some s
  | _ :: _, [] => none
  | l :: ls, c :: cs => if l.toLower == c.toLower then matchLitCI ls cs else none

/-- `(\d+)\s*BPM` (IGNORECASE) at the current position.  Greedy `\d+` then
greedy `\s*` then the literal: backtracking inside the digit or whitespace
runs can never succeed when the greedy parse fails (a shorter digit run is
followed by a digit, a shorter whitespace run by a whitespace character,
neither of which starts `BPM`), so this is exactly the Python semantics. -/
def tryNumBpm (s : List Char) : Option String :=
  let ds := s.takeWhile Char.isDigit
  if ds.isEmpty then none
  else
    let rest := (s.dropWhile Char.isDigit).dropWhile isPyWs
    match matchLitCI "bpm".data rest with
    | some _ => some (String.mk ds)
    | none => none

/-- `re.findall(r'(\d+)\s*BPM', s, re.IGNORECASE)` followed by `matches[0]`:
the first (leftmost) match. -/
def findNumBpm (s : String) : Option String :=
  scanOption tryNumBpm s.data

/-- `LIT\s*[:-]?\s*(\d+)` (IGNORECASE) at the current position.  After the
literal: greedy whitespace, at most one `:` or `-`, greedy whitespace, then
at least one digit.  As above, backtracking never rescues a failed greedy
parse, so the deterministic reading is exact. -/
def tryLitSepNum (lit : List Char) (s : List Char) : Option String :=
  match matchLitCI lit s with
  | none => none
  | some rest =>
    let r1 := rest.dropWhile isPyWs
    let r2 := match r1 with
              | c :: cs => if c == ':' || c == '-' then cs else r1
              | [] => r1
    let r3 := r2.dropWhile isPyWs
    tryDigits r3

/-- First match of `LIT\s*[:-]?\s*(\d+)` (IGNORECASE). -/
def findLitSepNum (lit : String) (s : String) : Option String :=
  scanOption (tryLitSepNum lit.data) s.data

/-- `(\d+)\s*beats per minute` (IGNORECASE) at the current position. -/
def tryNumBeats (s : List Char) : Option String :=
  let ds := s.takeWhile Char.isDigit
  if ds.isEmpty then none
  else
    let rest := (s.dropWhile Char.isDigit).dropWhile isPyWs
    match matchLitCI "beats per minute".data rest with
    | some _ => some (String.mk ds)
    | none => none

/-- First match of `(\d+)\s*beats per minute` (IGNORECASE). -/
def findNumBeats (s : String) : Option String :=
  scanOption tryNumBeats s.data

/-- `Tempo \(BPM\)[^\d]*(\d+)` (case-sensitive) at the current position:
the literal, then all following non-digits (greedy `[^\d]*`), then a digit
run.  If no digit follows the literal anywhere, the position fails. -/
def tryTempoParen (s : List Char) : Option String :=
  match matchLit "Tempo (BPM)".data s with
  | none => none
  | some rest => tryDigits (rest.dropWhile (fun c => !c.isDigit))

/-- `re.search(r'Tempo \(BPM\)[^\d]*(\d+)', s)`. -/
def findTempoParen (s : String) : Option String :=
  scanOption tryTempoParen s.data

/-- Python truthiness of an optional string: `None` and `""` are falsy. -/
def pyTruthy : Option String → Bool
  | none => false
  | some s => s ≠ ""

/-! ## URL construction -/

/-- Uppercase hex digit of `n < 16`. -/
def hexDigitChar (n : Nat) : Char :=
  if n < 10 then Char.ofNat (48 + n) else Char.ofNat (55 + n)

/-- `requests.utils.quote` on one character (ASCII scope; the default
`safe='/'` set keeps letters, digits, `_.-~` and `/`). -/
def quoteChar (c : Char) : String :=
  if c.isAlphanum || ['_', '.', '-', '~', '/'].contains c then
    String.singleton c
  else
    String.mk ['%', hexDigitChar (c.toNat / 16 % 16), hexDigitChar (c.toNat % 16)]

/-- `requests.utils.quote` (ASCII scope). -/
def pyQuote (s : String) : String :=
  String.join (s.data.map quoteChar)

/-- The single Tunebat API search URL built by `get_bpm_from_tunebat`. -/
def tunebat_api_url (artist track : String) : String :=
  "https://api.tunebat.com/api/tracks/search?term=" ++ pyQuote (artist ++ " " ++ track)

/-- `re.sub(r'[^\w\-]', '', s)` at ASCII scope: keep letters, digits, `_`
and `-`. -/
def stripNonWordDash (s : String) : String :=
  String.mk (s.data.filter (fun c => c.isAlphanum || c == '_' || c == '-'))

/-- The slug used by the tunebat scraper: lowercase, spaces to dashes, then
strip everything outside `[\w\-]`. -/
def tunebatSlug (s : String) : String :=
  stripNonWordDash (charReplace ' ' '-' (pyLower s))

/-- The four candidate URLs of `get_bpm_from_tunebat_web_scraping`, in the
order the source tries them. -/
def tunebat_scrape_urls (artist track : String) : List String :=
  let artist_clean := tunebatSlug artist
  let track_clean := tunebatSlug track
  [ "https://tunebat.com/Info/" ++ track_clean ++ "-" ++ artist_clean,
    "https://tunebat.com/Info/" ++ artist_clean ++ "-" ++ track_clean,
    "https://tunebat.com/Info/" ++ track_clean ++ "/" ++ artist_clean,
    "https://tunebat.com/Info/" ++ track_clean ++ "-by-" ++ artist_clean ]

/-- The two candidate URLs of `get_bpm_from_songbpm`, in source order
(dash-joined `@artist/track`, then plus-joined `artist/track`). -/
def songbpm_urls (artist track : String) : List String :=
  let artist_dash := charReplace ' ' '-' (pyLower artist)
  let track_dash := charReplace ' ' '-' (pyLower track)
  let artist_plus := charReplace ' ' '+' (pyLower artist)
  let track_plus := charReplace ' ' '+' (pyLower track)
  [ "https://songbpm.com/@" ++ artist_dash ++ "/" ++ track_dash,
    "https://songbpm.com/" ++ artist_plus ++ "/" ++ track_plus ]

/-! ## The SQLite cache (`known_bpms` table) -/

/-- One row of the `known_bpms` table. -/
structure BpmRecord where
  id : Nat
  artist : String
  track : String
  bpm : String
  source : String
  timestamp : Nat
deriving DecidableEq, Repr

/-- The `known_bpms` table: rows in rowid order, plus the next
AUTOINCREMENT id. -/
structure Db where
  records : List BpmRecord
  nextId : Nat
deriving DecidableEq, Repr

/-- The freshly created database (`init_database`). -/
def emptyDb : Db := ⟨[], 1⟩

/-- The `WHERE LOWER(artist) = LOWER(?) AND LOWER(track) = LOWER(?)` test,
with the parameters already passed through Python's `.lower()` as both
`check_known_bpms` and `save_bpm_to_db` do. -/
def sqlRowMatch (r : BpmRecord) (artist track : String) : Bool :=
  pyLower r.artist == pyLower (pyLower artist) && pyLower r.track == pyLower (pyLower track)

/-- The `SELECT bpm ... fetchone` of `check_known_bpms`, on a database that
could be read successfully. -/
def check_known_bpms_query (db : Db) (artist track : String) : Option String :=
  (db.records.find? (fun r => sqlRowMatch r artist track)).map (fun r => r.bpm)

/-- `check_known_bpms` itself: it installs no exception handler, so a
storage error (modelled by `readFails`) propagates to the caller. -/
def check_known_bpms (readFails : Bool) (db : Db) (artist track : String) :
    Except Unit (Option String) :=
  if readFails then Except.error () else Except.ok (check_known_bpms_query db artist track)

/-- The SQL effect of `save_bpm_to_db` when no `sqlite3.Error` occurs:
`SELECT id` with the case-folded key, then either `UPDATE ... WHERE id = ?`
of bpm/source/timestamp, or `INSERT` of the lowercased pair. -/
def upsertBpm (db : Db) (artist track bpm source : String) (now : Nat) : Db :=
  match db.records.find? (fun r => sqlRowMatch r artist track) with
  | some existing =>
    { db with
      records := db.records.map (fun r =>
        if r.id == existing.id then
          { r with bpm := bpm, source := source, timestamp := now }
        else r) }
  | none =>
    { records := db.records ++
        [⟨db.nextId, pyLower artist, pyLower track, bpm, source, now⟩],
      nextId := db.nextId + 1 }

/-- `save_bpm_to_db`: the whole SQL interaction is wrapped in
`try ... except sqlite3.Error`, so a storage failure (modelled by `fails`)
is logged and swallowed, leaving the database unchanged. -/
def save_bpm_to_db (fails : Bool) (db : Db) (artist track bpm source : String)
    (now : Nat) : Db :=
  if fails then db else upsertBpm db artist track bpm source now

/-- The case-folded key the `UNIQUE(artist, track)`-backed upsert logic
deduplicates on. -/
def keyOf (r : BpmRecord) : String × String :=
  (pyLower r.artist, pyLower r.track)

/-- At most one row per case-folded (artist, track) key. -/
def dbInvariant (db : Db) : Prop :=
  db.records.Pairwise (fun a b => keyOf a ≠ keyOf b)

example : findNumBpm "Random 87 BPM here" = some "87" := by decide
example : findNumBpm "no tempo here" = none := by decide
example : findTempoParen "Tempo (BPM): 95" = some "95" := by decide
example : findLitSepNum "bpm" "BPM - 120" = some "120" := by decide
example : check_known_bpms_query (upsertBpm emptyDb "Ar" "Tr" "128" "s" 5) "AR" "tr" = some "128" := by decide

/-! ## HTTP oracle and page models -/

/-- Python `str.strip()` at ASCII scope. -/
def pyStrip (s : String) : String :=
  String.mk (((s.data.dropWhile isPyWs).reverse.dropWhile isPyWs).reverse)

/-- Outcome of one `requests.get`: a transport exception, or a status code
with a body. -/
inductive HttpResp (β : Type) where
  | error : HttpResp β
  | response (status : Nat) (body : β) : HttpResp β

/-- One item of the Tunebat API response: `as` is the artist list
(`item.get('as', [])`), `n` the title (`item.get('n', '')` supplies `""`
when absent), `b` the tempo field (`'b' in best_match`).  Values carry the
string view of the JSON data; the source applies `str()` on return. -/
structure TunebatItem where
  as : List String
  n : Option String
  b : Option String
deriving DecidableEq, Repr

/-- Parse outcome of the Tunebat API response body. -/
inductive ApiBody where
  | malformed : ApiBody
  | wrongShape : ApiBody
  | items (items : List TunebatItem) : ApiBody
deriving DecidableEq, Repr

/-- One `application/ld+json` script block of a songbpm page:
either `json.loads` fails (`JSONDecodeError`/`AttributeError`, skipped), or
it parses with an optional `tempo` field. -/
inductive JsonLdScript where
  | parseError : JsonLdScript
  | parsed (tempo : Option String) : JsonLdScript
deriving DecidableEq, Repr

/-- BeautifulSoup view of a songbpm.com page: `bpmElement` the text of
`select_one('.bpm-value, h1 + div')` when it matches, `metrics` the texts
of `select('div.song-metrics, .song-metrics')`, `jsonLdScripts` the JSON-LD
blocks, `rawText` the raw `response.text`. -/
structure SongbpmPage where
  bpmElement : Option String
  metrics : List String
  jsonLdScripts : List JsonLdScript
  rawText : String
deriving DecidableEq, Repr

/-- One `div.row.attribute` row of a tunebat page: its `get_text()` and the
text of its `div.attribute-value` child, when present. -/
structure TunebatRow where
  text : String
  attributeValue : Option String
deriving DecidableEq, Repr

/-- BeautifulSoup view of a tunebat.com page: `attributeRows` for
`select('div.row.attribute')`, `select` the element texts of an arbitrary
CSS selector (method 2 consults it with five selector strings), `rawText`
the raw `response.text` (also what is written to `tunebat_response.html`). -/
structure TunebatPage where
  attributeRows : List TunebatRow
  select : String → List String
  rawText : String

/-! ## Extraction heuristics -/

/-- Method 2 of `get_bpm_from_songbpm`: the metric blocks whose text
contains `Tempo (BPM)`, searched with `Tempo \(BPM\)[^\d]*(\d+)`; a block
containing the label but yielding no regex match falls through to the next
block. -/
def songbpmMethod2 : List String → Option String
  | [] => none
  | m :: rest =>
    if strHas m "Tempo (BPM)" then
      match findTempoParen m with
      | some b => some b
      | none => songbpmMethod2 rest
    else songbpmMethod2 rest

/-- Method 3 of `get_bpm_from_songbpm`: the first JSON-LD block that parses
and carries a `tempo` field; blocks that fail to parse are skipped. -/
def songbpmMethod3 : List JsonLdScript → Option String
  | [] => none
  | JsonLdScript.parseError :: rest => songbpmMethod3 rest
  | JsonLdScript.parsed none :: rest => songbpmMethod3 rest
  | JsonLdScript.parsed (some t) :: _ => some t

/-- Method 1 of `get_bpm_from_songbpm` as a standalone attempt: the
`.bpm-value, h1 + div` element's stripped text, first integer substring. -/
def songbpmMethod1 (p : SongbpmPage) : Option String :=
  match p.bpmElement with
  | some txt => findFirstDigitRun (pyStrip txt)
  | none => none

/-- Method 4 of `get_bpm_from_songbpm` as a standalone attempt:
`re.findall(r'(\d+)\s*BPM', response.text, re.IGNORECASE)[0]`. -/
def songbpmMethod4 (p : SongbpmPage) : Option String :=
  findNumBpm p.rawText

/-- The extraction ladder of `get_bpm_from_songbpm` on a 200 page, with the
source's fall-through control flow (methods 1-4 in source order). -/
def extract_bpm_songbpm (p : SongbpmPage) : Option String :=
  match (match p.bpmElement with
         | some txt => findFirstDigitRun (pyStrip txt)
         | none => none) with
  | some bpm => some bpm
  | none =>
    match songbpmMethod2 p.metrics with
    | some bpm => some bpm
    | none =>
      match songbpmMethod3 p.jsonLdScripts with
      | some bpm => some bpm
      | none => findNumBpm p.rawText

/-- Method 1 of the tunebat scraper: the first `div.row.attribute` row whose
text contains `BPM` and carries a `div.attribute-value` child; its stripped
text is returned without numeric validation.  A `BPM` row without a value
element falls through to the next row. -/
def tunebatMethod1 : List TunebatRow → Option String
  | [] => none
  | r :: rest =>
    if strHas r.text "BPM" then
      match r.attributeValue with
      | some v => some (pyStrip v)
      | none => tunebatMethod1 rest
    else tunebatMethod1 rest

/-- The five CSS selectors of tunebat method 2, in source order. -/
def tunebatSelectors : List String :=
  [".attribute-value", ".bpm-value", ".tempo-value", ".bpm", ".tempo"]

/-- `re.match(r'^\d+$', text)` plus the sanity range
`40 <= int(text) <= 220`. -/
def isBpmNumber (s : String) : Bool :=
  !s.data.isEmpty && s.data.all Char.isDigit &&
    (let n := s.data.foldl (fun acc c => acc * 10 + (c.toNat - 48)) 0
     decide (40 ≤ n) && decide (n ≤ 220))

/-- Inner loop of tunebat method 2: the first element text of one selector
that is all digits within `[40, 220]`. -/
def tunebatScanElems : List String → Option String
  | [] => none
  | t :: rest =>
    let s := pyStrip t
    if isBpmNumber s then some s else tunebatScanElems rest

/-- Tunebat method 2: the five selectors in order, each element in order. -/
def tunebatMethod2 (select : String → List String) : List String → Option String
  | [] => none
  | sel :: rest =>
    match tunebatScanElems (select sel) with
    | some b => some b
    | none => tunebatMethod2 select rest

/-- Tunebat method 3: the four regex patterns over the raw text in source
order (`(\d+)\s*BPM`, `BPM\s*[:-]?\s*(\d+)`, `tempo\s*[:-]?\s*(\d+)`,
`(\d+)\s*beats per minute`), first match of the first pattern that has
one. -/
def tunebatMethod3 (rawText : String) : Option String :=
  match findNumBpm rawText with
  | some b => some b
  | none =>
    match findLitSepNum "bpm" rawText with
    | some b => some b
    | none =>
      match findLitSepNum "tempo" rawText with
      | some b => some b
      | none => findNumBeats rawText

/-- The extraction ladder of `get_bpm_from_tunebat_web_scraping` on a 200
page. -/
def extract_bpm_tunebat (p : TunebatPage) : Option String :=
  match tunebatMethod1 p.attributeRows with
  | some b => some b
  | none =>
    match tunebatMethod2 p.select tunebatSelectors with
    | some b => some b
    | none => tunebatMethod3 p.rawText

/-! ## Adapters and orchestrator -/

/-- The external environment of one invocation: storage-failure switches
(an `sqlite3` error during a read or a write), the wall clock, and the HTTP
oracle for the three external collaborators. -/
structure World where
  readFails : Bool
  writeFails : Bool
  now : Nat
  apiResp : HttpResp ApiBody
  tunebatPages : String → HttpResp TunebatPage
  songbpmPages : String → HttpResp SongbpmPage

/-- Observable outcome of one adapter call: returned value, URLs fetched in
order, files written in order, resulting database, and whether the API
adapter invoked its scrape fallback. -/
structure AdapterRun where
  result : Option String
  requests : List String
  fileWrites : List (String × String)
  db : Db
  usedScrapeFallback : Bool

/-- Per-URL loop of `get_bpm_from_tunebat_web_scraping`: fetch each
candidate in order; on HTTP 200 write the body to `tunebat_response.html`
and run the extraction ladder, returning at the first hit (after saving it
with source tag `tunebat_web`); on any other status or a transport error
continue with the next candidate. -/
def tunebatScrapeLoop (artist track : String) (w : World) :
    List String → Db → AdapterRun
  | [], db => ⟨none, [], [], db, false⟩
  | url :: rest, db =>
    match w.tunebatPages url with
    | HttpResp.error =>
      let r := tunebatScrapeLoop artist track w rest db
      { r with requests := url :: r.requests }
    | HttpResp.response status page =>
      if status == 200 then
        match extract_bpm_tunebat page with
        | some bpm =>
          ⟨some bpm, [url], [("tunebat_response.html", page.rawText)],
            save_bpm_to_db w.writeFails db artist track bpm "tunebat_web" w.now, false⟩
        | none =>
          let r := tunebatScrapeLoop artist track w rest db
          { r with requests := url :: r.requests,
                   fileWrites := ("tunebat_response.html", page.rawText) :: r.fileWrites }
      else
        let r := tunebatScrapeLoop artist track w rest db
        { r with requests := url :: r.requests }

/-- `get_bpm_from_tunebat_web_scraping`. -/
def get_bpm_from_tunebat_web_scraping (artist track : String) (w : World)
    (db : Db) : AdapterRun :=
  tunebatScrapeLoop artist track w (tunebat_scrape_urls artist track) db

/-- Does an item beat the positional default?  Case-insensitive artist-list
membership together with case-insensitive exact title equality. -/
def tunebatItemMatches (artist track : String) (item : TunebatItem) : Bool :=
  (item.as.map pyLower).contains (pyLower artist) &&
    pyLower track == pyLower (item.n.getD "")

/-- The `best_match` selection of `get_bpm_from_tunebat`: the first item,
overridden by the first item that matches artist and track. -/
def tunebat_best_match (artist track : String) (first : TunebatItem)
    (items : List TunebatItem) : TunebatItem :=
  match items.find? (tunebatItemMatches artist track) with
  | some it => it
  | none => first

/-- `get_bpm_from_tunebat`: the API attempt; every path except
"empty items" and "tempo found" falls through to the scrape fallback. -/
def get_bpm_from_tunebat (artist track : String) (w : World) (db : Db) :
    AdapterRun :=
  let url := tunebat_api_url artist track
  let fallback : Db → AdapterRun := fun d =>
    let r := get_bpm_from_tunebat_web_scraping artist track w d
    { r with requests := url :: r.requests, usedScrapeFallback := true }
  match w.apiResp with
  | HttpResp.error => fallback db
  | HttpResp.response status body =>
    if status == 200 then
      match body with
      | ApiBody.malformed => fallback db
      | ApiBody.wrongShape => fallback db
      | ApiBody.items [] => ⟨none, [url], [], db, false⟩
      | ApiBody.items (first :: rest) =>
        match (tunebat_best_match artist track first (first :: rest)).b with
        | some bpm =>
          ⟨some bpm, [url], [],
            save_bpm_to_db w.writeFails db artist track bpm "tunebat_api" w.now, false⟩
        | none => fallback db
    else fallback db

/-- Per-URL loop of `get_bpm_from_songbpm` (source tag `songbpm`). -/
def songbpmLoop (artist track : String) (w : World) :
    List String → Db → AdapterRun
  | [], db => ⟨none, [], [], db, false⟩
  | url :: rest, db =>
    match w.songbpmPages url with
    | HttpResp.error =>
      let r := songbpmLoop artist track w rest db
      { r with requests := url :: r.requests }
    | HttpResp.response status page =>
      if status == 200 then
        match extract_bpm_songbpm page with
        | some bpm =>
          ⟨some bpm, [url], [],
            save_bpm_to_db w.writeFails db artist track bpm "songbpm" w.now, false⟩
        | none =>
          let r := songbpmLoop artist track w rest db
          { r with requests := url :: r.requests }
      else
        let r := songbpmLoop artist track w rest db
        { r with requests := url :: r.requests }

/-- `get_bpm_from_songbpm`. -/
def get_bpm_from_songbpm (artist track : String) (w : World) (db : Db) :
    AdapterRun :=
  songbpmLoop artist track w (songbpm_urls artist track) db

/-- Observable outcome of one `main` invocation that did not crash. -/
structure MainRun where
  exitCode : Nat
  stdout : List String
  stderr : List String
  requests : List String
  fileWrites : List (String × String)
  db : Db
  tunebatInvoked : Bool
  songbpmInvoked : Bool

/-- The adapter cascade of `main` after the cache lookup:
`if not bpm: bpm = get_bpm_from_tunebat(...)`, then
`if not bpm: bpm = get_bpm_from_songbpm(...)`.  Returns the final value,
the database, the fetched URLs, the file writes, and whether each adapter
was invoked. -/
def lookupPipeline (artist track : String) (w : World) (db : Db)
    (cached : Option String) :
    Option String × Db × List String × List (String × String) × Bool × Bool :=
  let (bpm1, db1, reqs1, files1, tbInv) :=
    if pyTruthy cached then
      (cached, db, ([] : List String), ([] : List (String × String)), false)
    else
      let r := get_bpm_from_tunebat artist track w db
      (r.result, r.db, r.requests, r.fileWrites, true)
  let (bpm2, db2, reqs2, files2, sbInv) :=
    if pyTruthy bpm1 then
      (bpm1, db1, ([] : List String), ([] : List (String × String)), false)
    else
      let r := get_bpm_from_songbpm artist track w db1
      (r.result, r.db, r.requests, r.fileWrites, true)
  (bpm2, db2, reqs1 ++ reqs2, files1 ++ files2, tbInv, sbInv)

/-- `main`, relative to a `World` and the current database (the backing
file is assumed to exist already, so `init_database` is a no-op).  Note
that `print` writes to standard output only, that falling off `main` is
exit code 0, and that the only `Except.error` outcomes are an uncaught
storage exception in `check_known_bpms` and the (unreachable for a real
process) empty `sys.argv`. -/
def mainRun (argv : List String) (w : World) (db : Db) : Except Unit MainRun :=
  match argv with
  | prog :: artist :: track :: _ =>
    let _ := prog
    let banner := "Looking up BPM for: " ++ artist ++ " - " ++ track
    match check_known_bpms w.readFails db artist track with
    | Except.error e => Except.error e
    | Except.ok cached =>
      match lookupPipeline artist track w db cached with
      | (bpm2, db2, reqs, files, tbInv, sbInv) =>
        if pyTruthy bpm2 then
          Except.ok ⟨0,
            [banner, "BPM for '" ++ artist ++ " - " ++ track ++ "': " ++ bpm2.getD ""],
            [], reqs, files, db2, tbInv, sbInv⟩
        else
          Except.ok ⟨1,
            [banner, "Could not find BPM for '" ++ artist ++ " - " ++ track ++ "'"],
            [], reqs, files, db2, tbInv, sbInv⟩
  | [] => Except.error ()
  | prog :: _ =>
    Except.ok ⟨1, ["Usage: " ++ prog ++ " <artist> <track>"], [], [], [], db, false, false⟩

/-! ## Helper lemmas -/

/-- `find?` only depends on the predicate pointwise. -/
theorem find?_congrPred {α : Type} {p q : α → Bool} (h : ∀ a, p a = q a)
    (l : List α) : l.find? p = l.find? q := by
  induction l with
  | nil => rfl
  | cons a l ih =>
    simp only [List.find?, h a]
    cases q a <;> simp [ih]

/-- `find?` commutes with a map that does not disturb the predicate. -/
theorem find?_map_eq {α : Type} {f : α → α} {p : α → Bool}
    (hf : ∀ a, p (f a) = p a) (l : List α) :
    (l.map f).find? p = (l.find? p).map f := by
  induction l with
  | nil => rfl
  | cons a l ih =>
    simp only [List.map, List.find?, hf a]
    cases hpa : p a <;> simp [ih]

/-- Updating bpm/source/timestamp of selected rows does not disturb the
case-folded key test. -/
theorem sqlRowMatch_update (existing : BpmRecord) (bpm source : String)
    (now : Nat) (a t : String) (r : BpmRecord) :
    sqlRowMatch (if r.id == existing.id then
        { r with bpm := bpm, source := source, timestamp := now } else r) a t
      = sqlRowMatch r a t := by
  cases hid : r.id == existing.id <;> simp [sqlRowMatch, hid]

/-- A lookup with any case variation of an upserted key returns the
freshly stored BPM. -/
theorem check_known_bpms_query_upsert (db : Db) (a t bpm src : String)
    (now : Nat) (a2 t2 : String)
    (ha : pyLower a2 = pyLower a) (ht : pyLower t2 = pyLower t) :
    check_known_bpms_query (upsertBpm db a t bpm src now) a2 t2 = some bpm := by
  have e1 : pyLower (pyLower a2) = pyLower (pyLower a) := congrArg pyLower ha
  have e2 : pyLower (pyLower t2) = pyLower (pyLower t) := congrArg pyLower ht
  have hpred : ∀ r, sqlRowMatch r a2 t2 = sqlRowMatch r a t := by
    intro r; simp only [sqlRowMatch, e1, e2]
  cases hfind : db.records.find? (fun r => sqlRowMatch r a t) with
  | none =>
    simp only [check_known_bpms_query, upsertBpm, hfind]
    rw [find?_congrPred hpred, List.find?_append, hfind]
    simp [List.find?, sqlRowMatch]
  | some existing =>
    simp only [check_known_bpms_query, upsertBpm, hfind]
    rw [find?_congrPred hpred,
      find?_map_eq (fun r => sqlRowMatch_update existing bpm src now a t r), hfind]
    simp

/-- A `World` in which every HTTP request fails at the transport layer and
storage works. -/
def wAllFail : World :=
  { readFails := false, writeFails := false, now := 0,
    apiResp := HttpResp.error,
    tunebatPages := fun _ => HttpResp.error,
    songbpmPages := fun _ => HttpResp.error }

/-! ## C1 -/

/-- C1, counterexample: the claim fails when the stored BPM string is
empty.  After `save_bpm_to_db("A", "T", "", ...)`, the lookup
`check_known_bpms("a", "t")` does return the stored string `""`, but
`main`'s `if not bpm:` treats `""` as a cache miss, so both network
adapters are invoked — contradicting "returns it without invoking either
network adapter". -/
theorem C1_counterexample :
    check_known_bpms_query (upsertBpm emptyDb "A" "T" "" "s" 0) "a" "t" = some "" ∧
    (mainRun ["prog", "a", "t"] wAllFail
        (upsertBpm emptyDb "A" "T" "" "s" 0)).toOption.map
        (fun r => (r.tunebatInvoked, r.songbpmInvoked)) = some (true, true) := by
  exact ⟨by decide, by decide⟩

/-- C1 (amended): for every (artist, track) pair upserted via
`save_bpm_to_db` with a **non-empty** BPM string, a later lookup via
`check_known_bpms` with any case variation of artist and track returns the
stored BPM string, and `main` then prints it and exits 0 without invoking
either network adapter (no HTTP request, no file write, database
untouched). -/
theorem C1_cache_round_trip
    (artist track bpm source : String) (now : Nat) (db : Db)
    (artist2 track2 prog : String) (rest : List String) (w : World)
    (hb : bpm ≠ "")
    (ha : pyLower artist2 = pyLower artist)
    (ht : pyLower track2 = pyLower track)
    (hrf : w.readFails = false) :
    check_known_bpms_query (upsertBpm db artist track bpm source now)
        artist2 track2 = some bpm ∧
    mainRun (prog :: artist2 :: track2 :: rest) w
        (upsertBpm db artist track bpm source now) =
      Except.ok
        ⟨0,
         ["Looking up BPM for: " ++ artist2 ++ " - " ++ track2,
          "BPM for '" ++ artist2 ++ " - " ++ track2 ++ "': " ++ bpm],
         [], [], [], upsertBpm db artist track bpm source now, false, false⟩ := by
  have hq := check_known_bpms_query_upsert db artist track bpm source now
    artist2 track2 ha ht
  refine ⟨hq, ?_⟩
  simp [mainRun, lookupPipeline, check_known_bpms, hrf, hq, pyTruthy, hb]

/-- Witness for C1 at concrete inputs. -/
theorem C1_cache_round_trip_witness :
    check_known_bpms_query (upsertBpm emptyDb "Artist" "Track" "128" "s" 3)
        "ARTIST" "track" = some "128" ∧
    mainRun ["prog", "ARTIST", "track"] wAllFail
        (upsertBpm emptyDb "Artist" "Track" "128" "s" 3) =
      Except.ok
        ⟨0,
         ["Looking up BPM for: " ++ "ARTIST" ++ " - " ++ "track",
          "BPM for '" ++ "ARTIST" ++ " - " ++ "track" ++ "': " ++ "128"],
         [], [], [], upsertBpm emptyDb "Artist" "Track" "128" "s" 3,
         false, false⟩ :=
  C1_cache_round_trip "Artist" "Track" "128" "s" 3 emptyDb "ARTIST" "track"
    "prog" [] wAllFail (by decide) (by decide) (by decide) rfl

/-! ## C2 -/

/-- One call to `save_bpm_to_db`, with `fails` marking an `sqlite3.Error`
raised (and swallowed) during it. -/
structure SaveCall where
  artist : String
  track : String
  bpm : String
  source : String
  now : Nat
  fails : Bool

/-- A sequence of `save_bpm_to_db` calls. -/
def applyCalls (db : Db) : List SaveCall → Db
  | [] => db
  | c :: rest =>
    applyCalls (save_bpm_to_db c.fails db c.artist c.track c.bpm c.source c.now) rest

/-- The bpm/source/timestamp update does not disturb the case-folded key. -/
theorem keyOf_update (existing : BpmRecord) (bpm source : String) (now : Nat)
    (r : BpmRecord) :
    keyOf (if r.id == existing.id then
        { r with bpm := bpm, source := source, timestamp := now } else r)
      = keyOf r := by
  cases r.id == existing.id <;> simp [keyOf]

/-- The SQL `WHERE` test is exactly a test on the case-folded key. -/
theorem sqlRowMatch_iff_keyOf (r : BpmRecord) (a t : String) :
    sqlRowMatch r a t = true ↔
      keyOf r = (pyLower (pyLower a), pyLower (pyLower t)) := by
  simp [sqlRowMatch, keyOf, Prod.ext_iff]

/-- `upsertBpm` preserves the at-most-one-record-per-key invariant. -/
theorem upsertBpm_invariant (db : Db) (a t bpm src : String) (now : Nat)
    (h : dbInvariant db) : dbInvariant (upsertBpm db a t bpm src now) := by
  unfold dbInvariant at h ⊢
  cases hfind : db.records.find? (fun r => sqlRowMatch r a t) with
  | some existing =>
    simp only [upsertBpm, hfind]
    exact h.map _ (fun x y hxy => by
      rwa [keyOf_update existing bpm src now, keyOf_update existing bpm src now])
  | none =>
    simp only [upsertBpm, hfind]
    rw [List.pairwise_append]
    refine ⟨h, List.pairwise_singleton _ _, ?_⟩
    intro x hx y hy
    simp only [List.mem_singleton] at hy
    subst hy
    have hfalse := List.find?_eq_none.mp hfind x hx
    simp only [Bool.not_eq_true] at hfalse
    intro hkey
    have : sqlRowMatch x a t = true := by
      rw [sqlRowMatch_iff_keyOf]
      simpa [keyOf] using hkey
    simp [this] at hfalse
  
/-- `save_bpm_to_db` preserves the invariant (a failed write is a no-op). -/
theorem save_bpm_to_db_invariant (fails : Bool) (db : Db)
    (a t bpm src : String) (now : Nat) (h : dbInvariant db) :
    dbInvariant (save_bpm_to_db fails db a t bpm src now) := by
  cases fails <;> simp [save_bpm_to_db]
  · exact upsertBpm_invariant db a t bpm src now h
  · exact h

/-- The invariant survives any sequence of `save_bpm_to_db` calls. -/
theorem applyCalls_invariant (calls : List SaveCall) :
    ∀ db : Db, dbInvariant db → dbInvariant (applyCalls db calls) := by
  induction calls with
  | nil => exact fun db h => h
  | cons c rest ih =>
    intro db h
    exact ih _ (save_bpm_to_db_invariant c.fails db c.artist c.track c.bpm
      c.source c.now h)

/-- In a pairwise-key-distinct list, the filter by a key test containing a
member is that singleton member. -/
theorem filter_eq_singleton_of_pairwise
    {p : BpmRecord → Bool} {K : String × String}
    (hpred : ∀ x, p x = true ↔ keyOf x = K) :
    ∀ (l : List BpmRecord),
      l.Pairwise (fun x y => keyOf x ≠ keyOf y) →
      ∀ r ∈ l, p r = true → l.filter p = [r] := by
  intro l
  induction l with
  | nil => intro _ r hr; exact absurd hr (List.not_mem_nil r)
  | cons x xs ih =>
    intro hp r hr hpr
    have hx := List.pairwise_cons.mp hp
    rcases List.mem_cons.mp hr with rfl | hrxs
    · have hnil : xs.filter p = [] := by
        rw [List.filter_eq_nil_iff]
        intro y hy
        intro hpy
        exact hx.1 y hy ((hpred r).mp hpr ▸ ((hpred y).mp hpy).symm ▸ rfl)
      simp [List.filter, hpr, hnil]
    · have hpx : p x = false := by
        cases hpx : p x with
        | false => rfl
        | true =>
          exact absurd ((hpred x).mp hpx ▸ ((hpred r).mp hpr).symm)
            (fun hk => hx.1 r hrxs hk)
      simp only [List.filter, hpx]
      exact ih hx.2 r hrxs hpr

/-- `filter` commutes with a map that does not disturb the predicate. -/
theorem filter_map_comm {f : BpmRecord → BpmRecord} {p : BpmRecord → Bool}
    (hf : ∀ r, p (f r) = p r) (l : List BpmRecord) :
    (l.map f).filter p = (l.filter p).map f := by
  induction l with
  | nil => rfl
  | cons x xs ih =>
    simp only [List.map, List.filter, hf x]
    cases p x <;> simp [ih]

/-- On an invariant-satisfying database whose lookup finds `existing`, an
upsert leaves exactly one record for the key, carrying the new
bpm/source/timestamp (and `existing`'s id and stored case). -/
theorem upsertBpm_filter_update (db : Db) (a t b s : String) (n : Nat)
    (existing : BpmRecord)
    (hfind : db.records.find? (fun r => sqlRowMatch r a t) = some existing)
    (hdb : dbInvariant db) :
    (upsertBpm db a t b s n).records.filter (fun r => sqlRowMatch r a t)
      = [⟨existing.id, existing.artist, existing.track, b, s, n⟩] := by
  have hmem := List.mem_of_find?_eq_some hfind
  have hpr : sqlRowMatch existing a t = true := by
    have h := List.find?_some (p := fun r => sqlRowMatch r a t) hfind
    simpa using h
  have hfl := filter_eq_singleton_of_pairwise
      (p := fun r => sqlRowMatch r a t)
      (K := (pyLower (pyLower a), pyLower (pyLower t)))
      (fun x => sqlRowMatch_iff_keyOf x a t) db.records hdb existing hmem hpr
  simp only [upsertBpm, hfind]
  rw [filter_map_comm (fun r => sqlRowMatch_update existing b s n a t r), hfl]
  simp

/-- Last-write-wins: two upserts of the same pair leave exactly one record
for the key, reflecting the second call. -/
theorem upsert_twice_lww (db : Db) (a t b1 s1 b2 s2 : String) (n1 n2 : Nat)
    (hdb : dbInvariant db) :
    ((upsertBpm (upsertBpm db a t b1 s1 n1) a t b2 s2 n2).records.filter
        (fun r => sqlRowMatch r a t)).map
        (fun r => (r.bpm, r.source, r.timestamp)) = [(b2, s2, n2)] := by
  have hq := check_known_bpms_query_upsert db a t b1 s1 n1 a t rfl rfl
  rw [check_known_bpms_query] at hq
  obtain ⟨e1, hfind1, _⟩ := Option.map_eq_some'.mp hq
  have hinv1 := upsertBpm_invariant db a t b1 s1 n1 hdb
  rw [upsertBpm_filter_update (upsertBpm db a t b1 s1 n1) a t b2 s2 n2 e1
    hfind1 hinv1]
  simp

/-- C2: after any sequence of `save_bpm_to_db` calls on the fresh store,
the store holds at most one record per (lower(artist), lower(track)) key;
and on any invariant-satisfying store, upserting the same pair twice
leaves exactly one record for that key whose bpm, source and timestamp are
those of the second call. -/
theorem C2_cache_uniqueness (calls : List SaveCall) (db : Db)
    (a t b1 s1 b2 s2 : String) (n1 n2 : Nat) (hdb : dbInvariant db) :
    dbInvariant (applyCalls emptyDb calls) ∧
    ((upsertBpm (upsertBpm db a t b1 s1 n1) a t b2 s2 n2).records.filter
        (fun r => sqlRowMatch r a t)).map
        (fun r => (r.bpm, r.source, r.timestamp)) = [(b2, s2, n2)] :=
  ⟨applyCalls_invariant calls emptyDb (List.Pairwise.nil),
   upsert_twice_lww db a t b1 s1 b2 s2 n1 n2 hdb⟩

/-- Witness for C2 at concrete inputs. -/
theorem C2_cache_uniqueness_witness :
    dbInvariant (applyCalls emptyDb [⟨"a", "t", "99", "s", 0, false⟩]) ∧
    ((upsertBpm (upsertBpm emptyDb "A" "T" "120" "x" 1) "A" "T" "130" "y" 2).records.filter
        (fun r => sqlRowMatch r "A" "T")).map
        (fun r => (r.bpm, r.source, r.timestamp)) = [("130", "y", 2)] :=
  C2_cache_uniqueness [⟨"a", "t", "99", "s", 0, false⟩] emptyDb
    "A" "T" "120" "x" "130" "y" 1 2 (by constructor)

/-! ## C3 -/

/-- `find?` returns the element at the first index where the predicate
holds. -/
theorem find?_eq_get_of_first {α : Type} (p : α → Bool) :
    ∀ (l : List α) (k : Nat) (hk : k < l.length),
      p (l.get ⟨k, hk⟩) = true →
      (∀ j (hj : j < k), p (l.get ⟨j, Nat.lt_trans hj hk⟩) = false) →
      l.find? p = some (l.get ⟨k, hk⟩) := by
  intro l
  induction l with
  | nil => intro k hk; exact absurd hk (Nat.not_lt_zero k)
  | cons x xs ih =>
    intro k hk hpk hbefore
    cases k with
    | zero =>
      simp only [List.get] at hpk
      simp [List.find?, hpk]
    | succ k =>
      have hx : p x = false := hbefore 0 (Nat.succ_pos k)
      simp only [List.find?, hx]
      simp only [List.get] at hpk ⊢
      exact ih k (Nat.lt_of_succ_lt_succ hk) hpk
        (fun j hj => hbefore (j + 1) (Nat.succ_lt_succ hj))

/-- C3: for a parsed API response with a non-empty items list, the chosen
item defaults to the first item; if some item matches the queried artist
(case-insensitive artist-list membership) and track (case-insensitive exact
title equality), the first such item is chosen instead; in particular, when
only the second of two items matches, the adapter returns the second item's
tempo field. -/
theorem C3_api_match_selection (artist track : String) (w : World) (db : Db)
    (first : TunebatItem) (rest : List TunebatItem) :
    ((first :: rest).find? (tunebatItemMatches artist track) = none →
      tunebat_best_match artist track first (first :: rest) = first) ∧
    (∀ (k : Nat) (hk : k < (first :: rest).length),
      tunebatItemMatches artist track ((first :: rest).get ⟨k, hk⟩) = true →
      (∀ (j : Nat) (hj : j < k),
        tunebatItemMatches artist track
          ((first :: rest).get ⟨j, Nat.lt_trans hj hk⟩) = false) →
      tunebat_best_match artist track first (first :: rest)
        = (first :: rest).get ⟨k, hk⟩) ∧
    (∀ (i2 : TunebatItem) (bpm : String), rest = [i2] →
      tunebatItemMatches artist track first = false →
      tunebatItemMatches artist track i2 = true →
      i2.b = some bpm →
      w.apiResp = HttpResp.response 200 (ApiBody.items [first, i2]) →
      (get_bpm_from_tunebat artist track w db).result = some bpm) := by
  refine ⟨?_, ?_, ?_⟩
  · intro hnone
    simp [tunebat_best_match, hnone]
  · intro k hk hpk hbefore
    simp [tunebat_best_match,
      find?_eq_get_of_first (tunebatItemMatches artist track)
        (first :: rest) k hk hpk hbefore]
  · intro i2 bpm hrest h1 h2 hb happ
    subst hrest
    have hfind : [first, i2].find? (tunebatItemMatches artist track) = some i2 := by
      simp [List.find?, h1, h2]
    simp [get_bpm_from_tunebat, happ, tunebat_best_match, hfind, hb]

/-- A `World` whose API response holds two items of which only the second
matches the query ("a", "t"). -/
def wC3 : World :=
  { readFails := false, writeFails := false, now := 0,
    apiResp := HttpResp.response 200
      (ApiBody.items [⟨[], some "", none⟩, ⟨["A"], some "T", some "100"⟩]),
    tunebatPages := fun _ => HttpResp.error,
    songbpmPages := fun _ => HttpResp.error }

/-- Witness for C3: only the second of two items matches, and the adapter
returns the second item's tempo. -/
theorem C3_api_match_selection_witness :
    (get_bpm_from_tunebat "a" "t" wC3 emptyDb).result = some "100" :=
  (C3_api_match_selection "a" "t" wC3 emptyDb ⟨[], some "", none⟩
      [⟨["A"], some "T", some "100"⟩]).2.2
    ⟨["A"], some "T", some "100"⟩ "100" rfl (by decide) (by decide) rfl rfl

/-! ## C4 -/

/-- The exact fall-through condition of `get_bpm_from_tunebat`, read off
the amended claim: transport error, non-200 status, unparseable or
ill-shaped JSON, or a non-empty items list whose chosen item lacks the
tempo field; an empty items list does NOT fall through. -/
def apiFallsThrough (artist track : String) (resp : HttpResp ApiBody) : Bool :=
  match resp with
  | HttpResp.error => true
  | HttpResp.response s body =>
    if s == 200 then
      match body with
      | ApiBody.malformed => true
      | ApiBody.wrongShape => true
      | ApiBody.items [] => false
      | ApiBody.items (first :: rest) =>
        ((tunebat_best_match artist track first (first :: rest)).b).isNone
    else true

/-- A `World` whose API response is HTTP 200 with well-shaped JSON and one
item that has no tempo field. -/
def wC4 : World :=
  { readFails := false, writeFails := false, now := 0,
    apiResp := HttpResp.response 200 (ApiBody.items [⟨[], some "", none⟩]),
    tunebatPages := fun _ => HttpResp.error,
    songbpmPages := fun _ => HttpResp.error }

/-- C4, counterexample: the API response parses (HTTP 200, well-shaped
JSON, non-empty items), so by the claim the scrape fallback must not run —
yet because the chosen item has no `b` (tempo) field the adapter does
invoke `get_bpm_from_tunebat_web_scraping`. -/
theorem C4_counterexample :
    (get_bpm_from_tunebat "a" "t" wC4 emptyDb).usedScrapeFallback = true := by
  decide

/-- A `World` whose API response is HTTP 200 with an empty items list. -/
def wC4empty : World :=
  { readFails := false, writeFails := false, now := 0,
    apiResp := HttpResp.response 200 (ApiBody.items []),
    tunebatPages := fun _ => HttpResp.error,
    songbpmPages := fun _ => HttpResp.error }

/-- C4 (amended): `get_bpm_from_tunebat` invokes the HTML-scrape fallback
exactly when the API call hits a transport error, a non-200 status,
unparseable or ill-shaped JSON, or a parsed non-empty items list whose
chosen item lacks the tempo field; when the response parses and its items
list is empty, the adapter reports not-found (None) without invoking the
scrape fallback. -/
theorem C4_fall_through (artist track : String) (w : World) (db : Db) :
    ((get_bpm_from_tunebat artist track w db).usedScrapeFallback
        = apiFallsThrough artist track w.apiResp) ∧
    (w.apiResp = HttpResp.response 200 (ApiBody.items []) →
      (get_bpm_from_tunebat artist track w db).result = none ∧
      (get_bpm_from_tunebat artist track w db).usedScrapeFallback = false) := by
  constructor
  · cases hresp : w.apiResp with
    | error => simp [get_bpm_from_tunebat, apiFallsThrough, hresp]
    | response s body =>
      cases hs : s == 200 with
      | false => simp [get_bpm_from_tunebat, apiFallsThrough, hresp, hs]
      | true =>
        cases body with
        | malformed => simp [get_bpm_from_tunebat, apiFallsThrough, hresp, hs]
        | wrongShape => simp [get_bpm_from_tunebat, apiFallsThrough, hresp, hs]
        | items items =>
          cases items with
          | nil => simp [get_bpm_from_tunebat, apiFallsThrough, hresp, hs]
          | cons first rest =>
            cases hb : (tunebat_best_match artist track first (first :: rest)).b with
            | none =>
              simp [get_bpm_from_tunebat, apiFallsThrough, hresp, hs, hb]
            | some bpm =>
              simp [get_bpm_from_tunebat, apiFallsThrough, hresp, hs, hb]
  · intro h
    simp [get_bpm_from_tunebat, h]

/-- Witness for C4: 200 with an empty items list yields not-found with no
fallback. -/
theorem C4_fall_through_witness :
    (get_bpm_from_tunebat "a" "t" wC4empty emptyDb).result = none ∧
    (get_bpm_from_tunebat "a" "t" wC4empty emptyDb).usedScrapeFallback = false :=
  (C4_fall_through "a" "t" wC4empty emptyDb).2 rfl

/-! ## C5 and C6 -/

/-- The first non-null outcome of an ordered list of attempts (the claim's
"first match wins" reading). -/
def firstNonNull : List (Option String) → Option String
  | [] => none
  | o :: rest =>
    match o with
    | some b => some b
    | none => firstNonNull rest

/-- C5: the four heuristics of `get_bpm_from_songbpm` are applied in
source order (structural element, metrics label, JSON-LD tempo, generic
digits-before-BPM regex); the first non-null result is returned and later
methods are not consulted; and on a page holding only the arbitrary text
`"Random 87 BPM here"` the result is `"87"`. -/
theorem C5_extraction_order (p : SongbpmPage) :
    extract_bpm_songbpm p
      = firstNonNull [songbpmMethod1 p, songbpmMethod2 p.metrics,
          songbpmMethod3 p.jsonLdScripts, songbpmMethod4 p] ∧
    (∀ b, songbpmMethod1 p = some b → extract_bpm_songbpm p = some b) ∧
    (∀ b, songbpmMethod1 p = none → songbpmMethod2 p.metrics = some b →
      extract_bpm_songbpm p = some b) ∧
    (∀ b, songbpmMethod1 p = none → songbpmMethod2 p.metrics = none →
      songbpmMethod3 p.jsonLdScripts = some b →
      extract_bpm_songbpm p = some b) ∧
    (songbpmMethod1 p = none → songbpmMethod2 p.metrics = none →
      songbpmMethod3 p.jsonLdScripts = none →
      extract_bpm_songbpm p = songbpmMethod4 p) ∧
    extract_bpm_songbpm ⟨none, [], [], "Random 87 BPM here"⟩ = some "87" := by
  have hrw : extract_bpm_songbpm p
      = (match songbpmMethod1 p with
         | some bpm => some bpm
         | none =>
           match songbpmMethod2 p.metrics with
           | some bpm => some bpm
           | none =>
             match songbpmMethod3 p.jsonLdScripts with
             | some bpm => some bpm
             | none => songbpmMethod4 p) := rfl
  refine ⟨?_, ?_, ?_, ?_, ?_, by decide⟩
  · rw [hrw]
    cases songbpmMethod1 p with
    | some b => simp [firstNonNull]
    | none =>
      cases songbpmMethod2 p.metrics with
      | some b => simp [firstNonNull]
      | none =>
        cases songbpmMethod3 p.jsonLdScripts with
        | some b => simp [firstNonNull]
        | none => cases songbpmMethod4 p <;> simp [firstNonNull]
  · intro b h1
    rw [hrw, h1]
  · intro b h1 h2
    rw [hrw, h1, h2]
  · intro b h1 h2 h3
    rw [hrw, h1, h2, h3]
  · intro h1 h2 h3
    rw [hrw, h1, h2, h3]

/-- Witness for C5: on a page where only the generic regex can fire, the
ladder returns method 4's result. -/
theorem C5_extraction_order_witness :
    extract_bpm_songbpm ⟨none, [], [], "Random 87 BPM here"⟩
      = songbpmMethod4 ⟨none, [], [], "Random 87 BPM here"⟩ :=
  (C5_extraction_order ⟨none, [], [], "Random 87 BPM here"⟩).2.2.2.2.1
    rfl rfl rfl

/-- A script list with no parseable tempo yields nothing from method 3. -/
theorem songbpmMethod3_eq_none (l : List JsonLdScript)
    (h : ∀ s ∈ l, s = JsonLdScript.parseError ∨ s = JsonLdScript.parsed none) :
    songbpmMethod3 l = none := by
  induction l with
  | nil => rfl
  | cons s rest ih =>
    rcases h s (List.mem_cons_self s rest) with rfl | rfl
    · exact ih (fun x hx => h x (List.mem_cons_of_mem _ hx))
    · exact ih (fun x hx => h x (List.mem_cons_of_mem _ hx))

/-- C6: on a page with no BPM-like content — the structural selector
matches nothing, there is no metrics section, no JSON-LD block carries a
parseable tempo, and the raw text has no digits-before-BPM pattern — the
extraction ladder returns not-found (`none`).  The model is a total
function, mirroring the fact that `get_bpm_from_songbpm` catches every
exception its heuristics can raise. -/
theorem C6_extraction_totality (p : SongbpmPage)
    (hsel : p.bpmElement = none)
    (hmet : p.metrics = [])
    (hjson : ∀ s ∈ p.jsonLdScripts,
      s = JsonLdScript.parseError ∨ s = JsonLdScript.parsed none)
    (hregex : findNumBpm p.rawText = none) :
    extract_bpm_songbpm p = none := by
  have h3 := songbpmMethod3_eq_none p.jsonLdScripts hjson
  simp [extract_bpm_songbpm, hsel, hmet, songbpmMethod2, h3, hregex]

/-- Witness for C6 at a concrete page with no BPM-like content. -/
theorem C6_extraction_totality_witness :
    extract_bpm_songbpm
      ⟨none, [], [JsonLdScript.parseError, JsonLdScript.parsed none],
        "hello world"⟩ = none :=
  C6_extraction_totality
    ⟨none, [], [JsonLdScript.parseError, JsonLdScript.parsed none],
      "hello world"⟩
    rfl rfl (by decide) (by decide)

/-! ## C7 -/

/-- A `World` whose cache read raises an `sqlite3` error. -/
def wReadFail : World :=
  { readFails := true, writeFails := false, now := 0,
    apiResp := HttpResp.error,
    tunebatPages := fun _ => HttpResp.error,
    songbpmPages := fun _ => HttpResp.error }

/-- C7, counterexample: `check_known_bpms` installs no exception handler,
so a storage failure during the cache read propagates and `main` crashes
with an uncaught exception — it does not behave as a cache miss and never
reaches the adapters, contradicting the claim's read half. -/
theorem C7_counterexample :
    check_known_bpms true emptyDb "a" "t" = Except.error () ∧
    mainRun ["prog", "a", "t"] wReadFail emptyDb = Except.error () :=
  ⟨rfl, rfl⟩

/-- C7 (amended): a storage failure during the cache read propagates out of
`check_known_bpms` and aborts `main` (uncaught exception); a storage
failure during `save_bpm_to_db` is caught and dropped, leaving the store
unchanged, and the successfully found BPM is still printed with exit
code 0. -/
theorem C7_storage_failure (prog artist track : String) (rest : List String)
    (w : World) (db : Db) (item : TunebatItem) (bpm : String) :
    (w.readFails = true →
      mainRun (prog :: artist :: track :: rest) w db = Except.error ()) ∧
    (w.readFails = false → w.writeFails = true →
      check_known_bpms_query db artist track = none →
      w.apiResp = HttpResp.response 200 (ApiBody.items [item]) →
      item.b = some bpm → bpm ≠ "" →
      mainRun (prog :: artist :: track :: rest) w db =
        Except.ok ⟨0,
          ["Looking up BPM for: " ++ artist ++ " - " ++ track,
           "BPM for '" ++ artist ++ " - " ++ track ++ "': " ++ bpm],
          [], [tunebat_api_url artist track], [], db, true, false⟩) := by
  constructor
  · intro hrf
    simp [mainRun, check_known_bpms, hrf]
  · intro hrf hwf hmiss happ hb hbne
    have hbest : tunebat_best_match artist track item [item] = item := by
      cases hpi : tunebatItemMatches artist track item <;>
        simp [tunebat_best_match, List.find?, hpi]
    simp [mainRun, lookupPipeline, check_known_bpms, hrf, hmiss, pyTruthy,
      get_bpm_from_tunebat, happ, hbest, hb, save_bpm_to_db, hwf, hbne]

/-- A `World` with a failing cache write and a succeeding API lookup. -/
def wC7 : World :=
  { readFails := false, writeFails := true, now := 0,
    apiResp := HttpResp.response 200 (ApiBody.items [⟨["A"], some "T", some "99"⟩]),
    tunebatPages := fun _ => HttpResp.error,
    songbpmPages := fun _ => HttpResp.error }

/-- Witness for C7: a failed write is dropped (store unchanged) and the
found BPM is still reported with exit code 0. -/
theorem C7_storage_failure_witness :
    mainRun ["prog", "A", "T"] wC7 emptyDb =
      Except.ok ⟨0,
        ["Looking up BPM for: " ++ "A" ++ " - " ++ "T",
         "BPM for '" ++ "A" ++ " - " ++ "T" ++ "': " ++ "99"],
        [], [tunebat_api_url "A" "T"], [], emptyDb, true, false⟩ :=
  (C7_storage_failure "prog" "A" "T" [] wC7 emptyDb
      ⟨["A"], some "T", some "99"⟩ "99").2
    rfl rfl (by decide) rfl rfl (by decide)

/-! ## C8 -/

/-- C8, counterexample: a successful lookup writes two human-readable
lines to standard output (a banner and `BPM for 'a - t': 128`), not the
bare BPM value; and the missing-argument failure writes its usage message
to standard output while standard error stays empty — contradicting both
output halves of the claim (the exit codes 0 and 1 themselves are as
claimed). -/
theorem C8_counterexample :
    (mainRun ["prog", "a", "t"] wAllFail
        (upsertBpm emptyDb "a" "t" "128" "s" 0)).toOption.map
        (fun r => (r.exitCode, r.stdout, r.stderr))
      = some (0, ["Looking up BPM for: a - t", "BPM for 'a - t': 128"], []) ∧
    ["Looking up BPM for: a - t", "BPM for 'a - t': 128"] ≠ ["128"] ∧
    (mainRun ["prog"] wAllFail emptyDb).toOption.map
        (fun r => (r.exitCode, r.stdout, r.stderr))
      = some (1, ["Usage: prog <artist> <track>"], []) :=
  ⟨by decide, by decide, by decide⟩

/-- C8 (amended): with both artist and track supplied (and the cache read
not failing), the process exits 0 on success with standard output holding
the lookup banner followed by a line embedding the BPM value, and exits 1
on failure with the banner followed by a could-not-find line; with missing
required arguments it exits 1 with a usage line on standard output; in
every case nothing is written to standard error. -/
theorem C8_cli_contract (prog artist track : String) (rest : List String)
    (w : World) (db : Db) (hrf : w.readFails = false) :
    (∀ r, mainRun (prog :: artist :: track :: rest) w db = Except.ok r →
      r.stderr = [] ∧
      ((r.exitCode = 0 ∧ ∃ bpm, bpm ≠ "" ∧
          r.stdout = ["Looking up BPM for: " ++ artist ++ " - " ++ track,
            "BPM for '" ++ artist ++ " - " ++ track ++ "': " ++ bpm]) ∨
       (r.exitCode = 1 ∧
          r.stdout = ["Looking up BPM for: " ++ artist ++ " - " ++ track,
            "Could not find BPM for '" ++ artist ++ " - " ++ track ++ "'"]))) ∧
    (mainRun [prog] w db =
      Except.ok ⟨1, ["Usage: " ++ prog ++ " <artist> <track>"],
        [], [], [], db, false, false⟩) ∧
    (∀ a1, mainRun [prog, a1] w db =
      Except.ok ⟨1, ["Usage: " ++ prog ++ " <artist> <track>"],
        [], [], [], db, false, false⟩) := by
  refine ⟨?_, rfl, fun a1 => rfl⟩
  intro r hr
  simp only [mainRun, check_known_bpms, hrf, if_false, Bool.false_eq_true,
    ite_false] at hr
  rcases hq : lookupPipeline artist track w db
      (check_known_bpms_query db artist track) with ⟨b2, d2, rq, fl, ti, si⟩
  rw [hq] at hr
  cases hb2 : pyTruthy b2 with
  | true =>
    simp only [hb2, if_true, Except.ok.injEq] at hr
    subst hr
    refine ⟨rfl, Or.inl ⟨rfl, ?_⟩⟩
    cases b2 with
    | none => simp [pyTruthy] at hb2
    | some s =>
      refine ⟨s, ?_, rfl⟩
      simpa [pyTruthy] using hb2
  | false =>
    simp only [hb2, if_false, Bool.false_eq_true, ite_false,
      Except.ok.injEq] at hr
    subst hr
    exact ⟨rfl, Or.inr ⟨rfl, rfl⟩⟩

/-- Witness for C8: the missing-argument invocation exits 1 with the usage
line on standard output and empty standard error. -/
theorem C8_cli_contract_witness :
    mainRun ["prog"] wAllFail emptyDb =
      Except.ok ⟨1, ["Usage: " ++ "prog" ++ " <artist> <track>"],
        [], [], [], emptyDb, false, false⟩ :=
  (C8_cli_contract "prog" "a" "t" [] wAllFail emptyDb rfl).2.1

/-! ## C9 -/

/-- Every candidate URL of the whole pipeline, in the order the source
would try them: the single API URL, the four tunebat scrape candidates,
the two songbpm candidates. -/
def pipelineCandidateUrls (artist track : String) : List String :=
  tunebat_api_url artist track ::
    (tunebat_scrape_urls artist track ++ songbpm_urls artist track)

/-- The tunebat scrape loop fetches a subsequence of its candidate list
(each candidate at most once, in order). -/
theorem tunebatScrapeLoop_requests_sublist (artist track : String)
    (w : World) :
    ∀ (urls : List String) (db : Db),
      (tunebatScrapeLoop artist track w urls db).requests.Sublist urls := by
  intro urls
  induction urls with
  | nil => intro db; simp [tunebatScrapeLoop]
  | cons u us ih =>
    intro db
    cases hr : w.tunebatPages u with
    | error =>
      simp only [tunebatScrapeLoop, hr]
      exact (ih db).cons₂ u
    | response s page =>
      cases hs : s == 200 with
      | true =>
        simp only [tunebatScrapeLoop, hr, hs, if_true]
        cases hext : extract_bpm_tunebat page with
        | some bpm =>
          simp only [hext]
          exact (List.nil_sublist us).cons₂ u
        | none =>
          simp only [hext]
          exact (ih db).cons₂ u
      | false =>
        simp only [tunebatScrapeLoop, hr, hs, Bool.false_eq_true, if_false]
        exact (ih db).cons₂ u

/-- The songbpm loop fetches a subsequence of its candidate list. -/
theorem songbpmLoop_requests_sublist (artist track : String) (w : World) :
    ∀ (urls : List String) (db : Db),
      (songbpmLoop artist track w urls db).requests.Sublist urls := by
  intro urls
  induction urls with
  | nil => intro db; simp [songbpmLoop]
  | cons u us ih =>
    intro db
    cases hr : w.songbpmPages u with
    | error =>
      simp only [songbpmLoop, hr]
      exact (ih db).cons₂ u
    | response s page =>
      cases hs : s == 200 with
      | true =>
        simp only [songbpmLoop, hr, hs, if_true]
        cases hext : extract_bpm_songbpm page with
        | some bpm =>
          simp only [hext]
          exact (List.nil_sublist us).cons₂ u
        | none =>
          simp only [hext]
          exact (ih db).cons₂ u
      | false =>
        simp only [songbpmLoop, hr, hs, Bool.false_eq_true, if_false]
        exact (ih db).cons₂ u

/-- The API adapter's requests are a subsequence of the API URL followed by
the scrape candidates. -/
theorem get_bpm_from_tunebat_requests_sublist (artist track : String)
    (w : World) (db : Db) :
    (get_bpm_from_tunebat artist track w db).requests.Sublist
      (tunebat_api_url artist track :: tunebat_scrape_urls artist track) := by
  have hscrape : ∀ d : Db,
      (get_bpm_from_tunebat_web_scraping artist track w d).requests.Sublist
        (tunebat_scrape_urls artist track) :=
    fun d => tunebatScrapeLoop_requests_sublist artist track w
      (tunebat_scrape_urls artist track) d
  cases hresp : w.apiResp with
  | error =>
    simp only [get_bpm_from_tunebat, hresp]
    exact (hscrape db).cons₂ _
  | response s body =>
    cases hs : s == 200 with
    | true =>
      cases body with
      | malformed =>
        simp only [get_bpm_from_tunebat, hresp, hs, if_true]
        exact (hscrape db).cons₂ _
      | wrongShape =>
        simp only [get_bpm_from_tunebat, hresp, hs, if_true]
        exact (hscrape db).cons₂ _
      | items items =>
        cases items with
        | nil =>
          simp only [get_bpm_from_tunebat, hresp, hs, if_true]
          exact (List.nil_sublist _).cons₂ _
        | cons first rest =>
          cases hb : (tunebat_best_match artist track first (first :: rest)).b with
          | some bpm =>
            simp only [get_bpm_from_tunebat, hresp, hs, if_true, hb]
            exact (List.nil_sublist _).cons₂ _
          | none =>
            simp only [get_bpm_from_tunebat, hresp, hs, if_true, hb]
            exact (hscrape db).cons₂ _
    | false =>
      simp only [get_bpm_from_tunebat, hresp, hs, Bool.false_eq_true, if_false]
      exact (hscrape db).cons₂ _

/-- The whole pipeline's requests are a subsequence of the seven candidate
URLs. -/
theorem lookupPipeline_requests_sublist (artist track : String) (w : World)
    (db : Db) (cached : Option String) :
    (lookupPipeline artist track w db cached).2.2.1.Sublist
      (pipelineCandidateUrls artist track) := by
  have hsong : ∀ d : Db,
      (get_bpm_from_songbpm artist track w d).requests.Sublist
        (songbpm_urls artist track) :=
    fun d => songbpmLoop_requests_sublist artist track w
      (songbpm_urls artist track) d
  have htb := get_bpm_from_tunebat_requests_sublist artist track w db
  unfold lookupPipeline pipelineCandidateUrls
  cases hc : pyTruthy cached with
  | true =>
    simp only [hc, if_true]
    exact List.nil_sublist _
  | false =>
    simp only [hc, Bool.false_eq_true, if_false]
    cases hb1 : pyTruthy (get_bpm_from_tunebat artist track w db).result with
    | true =>
      simp only [hb1, if_true]
      simpa using htb.append (List.nil_sublist (songbpm_urls artist track))
    | false =>
      simp only [hb1, Bool.false_eq_true, if_false]
      exact htb.append (hsong _)

/-- C9, counterexample: in the worst case (every request fails at the
transport layer) one lookup issues 7 external HTTP requests — 1 API call,
4 tunebat scrape candidates and 2 songbpm candidates — exceeding the
claimed bound of 6. -/
theorem C9_counterexample :
    (mainRun ["prog", "a", "t"] wAllFail emptyDb).toOption.map
        (fun r => r.requests.length) = some 7 ∧ ¬ (7 ≤ 6) :=
  ⟨by decide, by decide⟩

/-- C9 (amended): each adapter tries each of its candidate URLs at most
once in its fixed order, with no retries — the fetched URLs of a whole run
form a subsequence of the seven pipeline candidates — so one lookup issues
at most 7 external HTTP requests. -/
theorem C9_bounded_requests (prog artist track : String)
    (rest : List String) (w : World) (db : Db) (r : MainRun)
    (h : mainRun (prog :: artist :: track :: rest) w db = Except.ok r) :
    r.requests.Sublist (pipelineCandidateUrls artist track) ∧
    r.requests.length ≤ 7 := by
  have hlen : (pipelineCandidateUrls artist track).length = 7 := rfl
  cases hrf : w.readFails with
  | true =>
    simp [mainRun, check_known_bpms, hrf] at h
  | false =>
    simp only [mainRun, check_known_bpms, hrf, Bool.false_eq_true,
      if_false] at h
    rcases hq : lookupPipeline artist track w db
        (check_known_bpms_query db artist track) with ⟨b2, d2, rq, fl, ti, si⟩
    rw [hq] at h
    have hsub : rq.Sublist (pipelineCandidateUrls artist track) := by
      have := lookupPipeline_requests_sublist artist track w db
        (check_known_bpms_query db artist track)
      rwa [hq] at this
    have hreq : r.requests = rq := by
      cases hb2 : pyTruthy b2 with
      | true =>
        simp only [hb2, if_true, Except.ok.injEq] at h
        subst h; rfl
      | false =>
        simp only [hb2, Bool.false_eq_true, if_false, Except.ok.injEq] at h
        subst h; rfl
    rw [hreq]
    exact ⟨hsub, hlen ▸ hsub.length_le⟩

/-- The worst-case run of the pipeline on the query ("a", "t"): all seven
candidates are fetched and the lookup fails. -/
def rC9 : MainRun :=
  ⟨1, ["Looking up BPM for: a - t", "Could not find BPM for 'a - t'"], [],
   ["https://api.tunebat.com/api/tracks/search?term=a%20t",
    "https://tunebat.com/Info/t-a", "https://tunebat.com/Info/a-t",
    "https://tunebat.com/Info/t/a", "https://tunebat.com/Info/t-by-a",
    "https://songbpm.com/@a/t", "https://songbpm.com/a/t"],
   [], emptyDb, true, true⟩

/-- Witness for C9 at the all-failing world. -/
theorem C9_bounded_requests_witness :
    rC9.requests.Sublist (pipelineCandidateUrls "a" "t") ∧
    rC9.requests.length ≤ 7 :=
  C9_bounded_requests "prog" "a" "t" [] wAllFail emptyDb rC9 rfl

/-! ## C10 -/

/-- Whenever the scrape loop fetched a URL whose response was HTTP 200,
the whole body was written to `tunebat_response.html`. -/
theorem tunebatScrapeLoop_writes (artist track : String) (w : World) :
    ∀ (urls : List String) (db : Db) (url : String) (body : TunebatPage),
      url ∈ (tunebatScrapeLoop artist track w urls db).requests →
      w.tunebatPages url = HttpResp.response 200 body →
      ("tunebat_response.html", body.rawText)
        ∈ (tunebatScrapeLoop artist track w urls db).fileWrites := by
  intro urls
  induction urls with
  | nil =>
    intro db url body hmem _
    simp [tunebatScrapeLoop] at hmem
  | cons u us ih =>
    intro db url body hmem hresp
    by_cases hu : url = u
    · subst hu
      simp only [tunebatScrapeLoop, hresp] at hmem ⊢
      cases hext : extract_bpm_tunebat body with
      | some bpm => simp [hext]
      | none => simp [hext]
    · cases hr : w.tunebatPages u with
      | error =>
        simp only [tunebatScrapeLoop, hr] at hmem ⊢
        rcases List.mem_cons.mp hmem with h1 | h2
        · exact absurd h1 hu
        · exact ih db url body h2 hresp
      | response s page =>
        cases hs : s == 200 with
        | true =>
          simp only [tunebatScrapeLoop, hr, hs, if_true] at hmem ⊢
          cases hext : extract_bpm_tunebat page with
          | some bpm =>
            simp only [hext] at hmem ⊢
            simp only [List.mem_singleton] at hmem
            exact absurd hmem hu
          | none =>
            simp only [hext] at hmem ⊢
            rcases List.mem_cons.mp hmem with h1 | h2
            · exact absurd h1 hu
            · exact List.mem_cons_of_mem _ (ih db url body h2 hresp)
        | false =>
          simp only [tunebatScrapeLoop, hr, hs, Bool.false_eq_true,
            if_false] at hmem ⊢
          rcases List.mem_cons.mp hmem with h1 | h2
          · exact absurd h1 hu
          · exact ih db url body h2 hresp

/-- C10: whenever a candidate URL fetched by the tunebat web-scraping
adapter returns HTTP 200, the adapter writes the entire response body to
the file `tunebat_response.html` in the current working directory (the
file is opened with mode `"w"`, truncating any prior contents), whether or
not a BPM is ultimately extracted — so a lookup modifies state other than
the cache store. -/
theorem C10_scrape_writes_file (artist track : String) (w : World) (db : Db)
    (url : String) (body : TunebatPage)
    (hmem : url ∈ (get_bpm_from_tunebat_web_scraping artist track w db).requests)
    (hresp : w.tunebatPages url = HttpResp.response 200 body) :
    ("tunebat_response.html", body.rawText)
      ∈ (get_bpm_from_tunebat_web_scraping artist track w db).fileWrites :=
  tunebatScrapeLoop_writes artist track w (tunebat_scrape_urls artist track)
    db url body hmem hresp

/-- A 200 page from which no BPM can be extracted. -/
def pageC10 : TunebatPage := ⟨[], fun _ => [], "nothing here"⟩

/-- A `World` in which the first tunebat scrape candidate for ("a", "t")
returns a 200 page with no extractable BPM. -/
def wC10 : World :=
  { readFails := false, writeFails := false, now := 0,
    apiResp := HttpResp.error,
    tunebatPages := fun u =>
      if u == "https://tunebat.com/Info/t-a" then HttpResp.response 200 pageC10
      else HttpResp.error,
    songbpmPages := fun _ => HttpResp.error }

/-- Witness for C10: the body is written even though no BPM is found. -/
theorem C10_scrape_writes_file_witness :
    ("tunebat_response.html", "nothing here")
      ∈ (get_bpm_from_tunebat_web_scraping "a" "t" wC10 emptyDb).fileWrites ∧
    (get_bpm_from_tunebat_web_scraping "a" "t" wC10 emptyDb).result = none :=
  ⟨C10_scrape_writes_file "a" "t" wC10 emptyDb
      "https://tunebat.com/Info/t-a" pageC10 (by decide) rfl,
   by decide⟩
